import Mathlib

/-!
# Verification of the knx2mqtt bridge core (src/main.rs)

Shallow embedding of the bridge engine of `knxkit_knx2mqtt`:
the translation layer (`handle_knx`, `handle_mqtt`), the event-multiplexer
session loop (`run_loop`), and the connection supervisor (`run`).

External collaborators (the knxkit bus stack, the per-type value codecs of
`knxkit_dpt`, project metadata lookup, MQTT transport, JSON payload parsing)
are abstracted as fields of an `Env` record: opaque identifier types stand in
for `GroupAddress`, `DataPoint`, datapoint types and JSON values, and the
collaborator functions are arbitrary parameters.  The bridge logic itself is
translated line by line from `src/main.rs`.

Rust `panic!` sites that are reachable from the embedded code (the
out-of-bounds byte-slice `publish.topic[prefix.len() + 1 ..]` in
`handle_mqtt`, and the `.unwrap()` on the MQTT publish result in `run_loop`)
are modelled explicitly as a `panic` outcome rather than hidden.
-/

/-- Opaque stand-in for `knxkit::core::address::GroupAddress`. -/
abbrev GroupAddress := Nat

/-- Opaque stand-in for `knxkit::core::DataPoint` (decidable equality is all
the bridge uses: `data_point1 == data_point2`). -/
abbrev DataPoint := Nat

/-- Opaque stand-in for a datapoint type descriptor (`dpt`). -/
abbrev DptId := Nat

/-- Opaque stand-in for a `serde_json::Value`. -/
abbrev JsonVal := Nat

/-- Raw payload bytes of a telegram (`data` of the APDU). -/
abbrev RawData := List Nat

/-- Application-layer service of an APDU (`knxkit::core::apdu::Service`).
Only the two actionable services are distinguished; every other service is
collapsed into `other`. -/
inductive Service where
  | groupValueWrite
  | groupValueResponse
  | other (code : Nat)
  deriving DecidableEq, Repr

/-- The fields of `knxkit::core::apdu::APDU` read by the bridge
(`service` and `data`; remaining fields are matched with `..`). -/
structure APDU where
  service : Service
  data : Option RawData
  deriving DecidableEq, Repr

/-- `knxkit::core::tpdu::TPDU`: the bridge only distinguishes
`TPDU::DataGroup(apdu)` from every other transport PDU. -/
inductive TPDU where
  | dataGroup (apdu : APDU)
  | otherTpdu
  deriving DecidableEq, Repr

/-- `knxkit::core::address::DestinationAddress`. -/
inductive DestinationAddress where
  | group (g : GroupAddress)
  | individual (n : Nat)
  deriving DecidableEq, Repr

/-- The fields of `knxkit::core::cemi::CEMI` read by the bridge:
`cemi.npdu.tpdu` and `cemi.destination` (the npdu wrapper is flattened). -/
structure CEMI where
  tpdu : TPDU
  destination : DestinationAddress
  deriving DecidableEq, Repr

/-- One group entry of the project's group list (`project.groups.groups`);
the bridge only reads its `address` field. -/
structure ProjectGroup where
  address : GroupAddress
  deriving DecidableEq, Repr

/-- The part of a `knxkit::project::Project` the bridge reads: the iterable
group list (`project.groups.groups`, flattened to one list). -/
structure Project where
  groups : List ProjectGroup
  deriving DecidableEq, Repr

/-- `MqttGroupMessageIn` of main.rs: the accepted inbound payload shape. -/
structure MqttGroupMessageIn where
  raw : Option String
  value : Option JsonVal
  deriving DecidableEq, Repr

/-- `MqttGroupMessageOut` of main.rs, before serde serialization. -/
structure MqttGroupMessageOut where
  raw : String
  dpt : Option String
  unit : Option String
  value : Option JsonVal
  deriving DecidableEq, Repr

/-- A serialized JSON field value, as far as the bridge's payloads need:
a string, an embedded JSON value, or `null`. -/
inductive JField where
  | str (s : String)
  | json (v : JsonVal)
  | null
  deriving DecidableEq, Repr

/-- Serde serialization of `MqttGroupMessageOut` as an ordered JSON object.
Field by field, following the attributes in main.rs: `raw` has no attribute
(always emitted); `dpt` has NO `skip_serializing_if` attribute, so a `None`
dpt is emitted as JSON `null`; `unit` and `value` both carry
`#[serde(skip_serializing_if = "Option.is_none")]`, so they are omitted
when `None`. -/
def serializeOut (m : MqttGroupMessageOut) : List (String × JField) :=
  [("raw", JField.str m.raw)]
    ++ [("dpt", match m.dpt with
        | some s => JField.str s
        | none => JField.null)]
    ++ (match m.unit with
        | some u => [("unit", JField.str u)]
        | none => [])
    ++ (match m.value with
        | some v => [("value", JField.json v)]
        | none => [])

/-- Lookup of a field in a serialized JSON object (first occurrence). -/
def jsonLookup (key : String) : List (String × JField) → Option JField
  | [] => none
  | (k, v) :: rest => if k = key then some v else jsonLookup key rest

/-- The environment: CLI configuration (`cli.rs` / `CLI`) together with the
external collaborators the bridge calls, abstracted as functions.

* `prefixBytes` — the UTF-8 bytes of `CLI.mqtt_prefix` (used by
  `starts_with`, `len` and the byte slice in `handle_mqtt`);
* ` prefixStr` — `CLI.mqtt_prefix` as a string (used by
  `format!("{}/{}", ...)` in `handle_knx`);
* `group_dpt`, `group_dpt_unit`, `group_json` — the project/metadata
  collaborator (`ProjectExt` / `ProjectExtDPT` on `CLI.project.as_ref()`;
  absence of a project is absorbed: they return `none` then);
* `try_decode_json` — `knxkit_dpt::generic::try_decode_json(dpt, value)`
  composed with `.to_data_point()`; `Except` models the Rust `Result`;
* `dataPointFromStr` — `DataPoint::from_str(&raw)`;
* `dataToString` — `data.to_string()` (canonical raw form of payload bytes);
* `groupToString` / `groupFromStr` — `GroupAddress`'s `Display` and
  `FromStr` (`from_str` failure is `none`);
* `dptToString` — `dpt.to_string()`;
* `fromUtf8Lossy` — `String::from_utf8_lossy` on a byte slice. -/
structure Env where
  prefixBytes : List Nat
  prefixStr : String
  ignore_unknown : Bool
  initial_request : Bool
  initial_request_delay : Nat
  project : Option Project
  group_dpt : GroupAddress → Option DptId
  group_dpt_unit : GroupAddress → Option String
  group_json : GroupAddress → RawData → Option JsonVal
  try_decode_json : DptId → JsonVal → Except String DataPoint
  dataPointFromStr : String → Except String DataPoint
  dataToString : RawData → String
  groupToString : GroupAddress → String
  groupFromStr : String → Option GroupAddress
  dptToString : DptId → String
  fromUtf8Lossy : List Nat → String

/-- `Mqtt::handle_knx` of main.rs, translated clause by clause.  The Rust
function returns `Result<Option<(String, String)>>` but never constructs an
`Err` (the only fallible step, `serde_json::to_string`, is unwrapped with
`expect` and cannot fail on this struct), so the embedding returns `Option`
directly; the serialized payload is kept as an ordered JSON object. -/
def handle_knx (env : Env) (cemi : CEMI) : Option (String × List (String × JField)) :=
  match cemi.tpdu, cemi.destination with
  | TPDU.dataGroup { service := service, data := some data },
    DestinationAddress.group group =>
      if service = Service.groupValueWrite ∨ service = Service.groupValueResponse then
        let message : MqttGroupMessageOut :=
          { raw := env.dataToString data
            dpt := (env.group_dpt group).map env.dptToString
            unit := env.group_dpt_unit group
            value := env.group_json group data }
        some (env.prefixStr ++ "/" ++ env.groupToString group, serializeOut message)
      else
        none
  | _, _ => none

/-- Result of a fallible bridge operation: a normal return (`ok`), a Rust
`Err` propagated with `?` (`error`), or a Rust panic (`panic`). -/
inductive Outcome (α : Type) where
  | ok (a : α)
  | error (e : String)
  | panic
  deriving DecidableEq, Repr

/-- Inbound MQTT publish (`rumqttc::...::Publish`): the fields the bridge
reads are the topic bytes, the payload bytes and the `retain` flag.  The
payload is carried pre-parsed together with a parse-success flag:
`payload = .error e` models a payload `serde_json::from_slice` rejects. -/
structure Publish where
  topic : List Nat
  payload : Except String MqttGroupMessageIn
  retain : Bool

/-- `Mqtt::handle_mqtt` of main.rs, translated clause by clause; the second
component collects the `warn!` messages the call emits.

The byte slice `&publish.topic[CLI.mqtt_prefix.len() + 1 ..]` is modelled
faithfully: it is in bounds iff `prefix.len() + 1 ≤ topic.len()`, and out of
bounds it panics — note that `starts_with` only checks the prefix bytes and
the slice then skips one byte unconditionally; no separator is checked. -/
def handle_mqtt (env : Env) (publish : Publish) :
    Outcome (Option (GroupAddress × DataPoint)) × List String :=
  if List.isPrefixOf env.prefixBytes publish.topic then
    if env.prefixBytes.length + 1 ≤ publish.topic.length then
      match env.groupFromStr
          (env.fromUtf8Lossy (publish.topic.drop (env.prefixBytes.length + 1))) with
      | none => (Outcome.error "invalid group address", [])
      | some group =>
        match publish.payload with
        | Except.error e => (Outcome.error e, [])
        | Except.ok message =>
          let dpt := env.group_dpt group
          if dpt.isNone ∧ env.ignore_unknown then
            (Outcome.ok none, [])
          else
            match message.raw, message.value, dpt with
            | none, some value, some dpt =>
              match env.try_decode_json dpt value with
              | Except.error e => (Outcome.error e, [])
              | Except.ok data_point => (Outcome.ok (some (group, data_point)), [])
            | some raw, none, _ =>
              match env.dataPointFromStr raw with
              | Except.error e => (Outcome.error e, [])
              | Except.ok data_point => (Outcome.ok (some (group, data_point)), [])
            | some _, some _, none =>
              (Outcome.ok none,
                ["both raw and value fields are set, but dpt is known. ignoring"])
            | some raw, some value, some dpt =>
              match env.try_decode_json dpt value with
              | Except.error e => (Outcome.error e, [])
              | Except.ok data_point1 =>
                match env.dataPointFromStr raw with
                | Except.error e => (Outcome.error e, [])
                | Except.ok data_point2 =>
                  if data_point1 = data_point2 then
                    (Outcome.ok (some (group, data_point1)), [])
                  else
                    (Outcome.ok none,
                      ["both raw and value fields are set, but dont match. ignoring"])
            | _, _, _ => (Outcome.ok none, [])
    else
      (Outcome.panic, [])
  else
    (Outcome.ok none, [])

/-! ## The event-multiplexer session loop (`run_loop`) -/

/-- The outcome of the bus `connection.recv()` await: a telegram, or `None`
(connection closed). -/
inductive BusEvent where
  | telegram (cemi : CEMI)
  | closed
  deriving Repr

/-- The outcome of one `mqtt_event_loop.poll()` await: an incoming publish
packet, any other event (`Ok(_)` arm), or a poll error (`Err` arm). -/
inductive PollResult where
  | publishArrived (p : Publish)
  | otherEvent
  | pollError (e : String)

/-- The event of one `tokio::select!` iteration: exactly one of the four
branches becomes ready. -/
inductive LoopEvent where
  | interrupt
  | mqttPoll (r : PollResult)
  | pacingTick
  | bus (e : BusEvent)

/-- Side effects one loop iteration can issue, in order. -/
inductive BridgeAction where
  | disconnectMqtt
  | groupWrite (g : GroupAddress) (d : DataPoint)
  | groupRequest (g : GroupAddress)
  | publishMqtt (topic : String) (message : List (String × JField))
  | logWarn (s : String)
  | logError (s : String)
  deriving DecidableEq, Repr

/-- Session-local mutable state of `run_loop`: the initial-request queue
(`request_queue : VecDeque<GroupAddress>`). -/
structure SessionState where
  queue : List GroupAddress
  deriving DecidableEq, Repr

/-- Results of the awaited fallible I/O calls one iteration can make
(`connection.group_write`, `mqtt_client.publish`, `connection.group_request`):
`true` = `Ok`.  Exactly one such call happens per iteration, so one record
per step suffices. -/
structure IOOracle where
  groupWriteOk : Bool
  publishOk : Bool
  groupRequestOk : Bool

/-- How one `tokio::select!` iteration ends: keep looping, `break false`
("stop outer loop", interrupt), `break true` ("continue outer loop", bus
closed), or a Rust panic aborting the process (`.unwrap()` on a failed
MQTT publish, or a panic propagating out of `handle_mqtt`). -/
inductive StepOutcome where
  | keepLooping
  | stopOuter
  | continueOuter
  | panicked
  deriving DecidableEq, Repr

/-- Result of one loop iteration: outcome, new session state, actions. -/
structure StepRes where
  outcome : StepOutcome
  state : SessionState
  acts : List BridgeAction
  deriving Repr

/-- The initial fill of the request queue at the start of `run_loop`
(main.rs lines 193–203): populated once, before the loop, only when
`CLI.initial_request` is set and a project is configured, in the project's
group-enumeration order. -/
def initialQueue (env : Env) : List GroupAddress :=
  if env.initial_request then
    match env.project with
    | some project => project.groups.map ProjectGroup.address
    | none => []
  else []

/-- Session state at the top of the `loop` in `run_loop`. -/
def initState (env : Env) : SessionState :=
  { queue := initialQueue env }

/-- The duration given to `tokio::time::sleep` in the pacing branch:
`Duration::MAX` when the queue is empty (modelled as `none`: within any
session this timer never fires), `CLI.initial_request_delay` otherwise. -/
def pacingSleep (env : Env) (st : SessionState) : Option Nat :=
  if st.queue.isEmpty then none else some env.initial_request_delay

/-- One iteration of the `tokio::select!` loop of `run_loop`
(main.rs lines 205–278), branch by branch:

* interrupt: best-effort `mqtt_client.disconnect()` (result discarded),
  then `break false`;
* MQTT poll: a non-retained publish goes through `handle_mqtt`; `Ok(Some)`
  issues a bus group write whose failure is logged via `error!`; `Ok(None)`
  is a no-op; `Err` is logged via `warn!`; a panic inside `handle_mqtt`
  aborts; retained publishes and all other poll events are ignored; a poll
  error is logged via `warn!`;
* pacing tick: `request_queue.pop_front()`, and for a popped address a
  `connection.group_request` whose result is discarded (`let _ =`);
* bus recv: a telegram goes through `handle_knx`; `Ok(Some)` publishes via
  `mqtt_client.publish(..).await.unwrap()` — a failed publish therefore
  panics; `Ok(None)` is a no-op (the `Err` arm of the Rust `match` is
  unreachable since `handle_knx` never returns `Err`); a closed connection
  `break true`s. -/
def run_loop_step (env : Env) (oracle : IOOracle) (st : SessionState) :
    LoopEvent → StepRes
  | LoopEvent.interrupt =>
      { outcome := StepOutcome.stopOuter, state := st, acts := [BridgeAction.disconnectMqtt] }
  | LoopEvent.mqttPoll r =>
      match r with
      | PollResult.publishArrived p =>
          if p.retain then
            { outcome := StepOutcome.keepLooping, state := st, acts := [] }
          else
            match handle_mqtt env p with
            | (Outcome.ok (some (group_address, data_point)), warns) =>
                { outcome := StepOutcome.keepLooping, state := st
                  acts := warns.map BridgeAction.logWarn
                    ++ [BridgeAction.groupWrite group_address data_point]
                    ++ (if oracle.groupWriteOk then []
                        else [BridgeAction.logError "cannot write to group"]) }
            | (Outcome.ok none, warns) =>
                { outcome := StepOutcome.keepLooping, state := st
                  acts := warns.map BridgeAction.logWarn }
            | (Outcome.error _, warns) =>
                { outcome := StepOutcome.keepLooping, state := st
                  acts := warns.map BridgeAction.logWarn
                    ++ [BridgeAction.logWarn "cannot handle incoming mqtt message"] }
            | (Outcome.panic, warns) =>
                { outcome := StepOutcome.panicked, state := st
                  acts := warns.map BridgeAction.logWarn }
      | PollResult.otherEvent =>
          { outcome := StepOutcome.keepLooping, state := st, acts := [] }
      | PollResult.pollError _ =>
          { outcome := StepOutcome.keepLooping, state := st
            acts := [BridgeAction.logWarn "mqtt error"] }
  | LoopEvent.pacingTick =>
      match st.queue with
      | [] => { outcome := StepOutcome.keepLooping, state := st, acts := [] }
      | group :: rest =>
          { outcome := StepOutcome.keepLooping, state := { queue := rest }
            acts := [BridgeAction.groupRequest group] }
  | LoopEvent.bus BusEvent.closed =>
      { outcome := StepOutcome.continueOuter, state := st, acts := [] }
  | LoopEvent.bus (BusEvent.telegram cemi) =>
      match handle_knx env cemi with
      | some (topic, message) =>
          if oracle.publishOk then
            { outcome := StepOutcome.keepLooping, state := st
              acts := [BridgeAction.publishMqtt topic message] }
          else
            { outcome := StepOutcome.panicked, state := st
              acts := [BridgeAction.publishMqtt topic message] }
      | none =>
          { outcome := StepOutcome.keepLooping, state := st, acts := [] }

/-- How a session run over a finite event list ended: the loop `break`s with
a boolean (`run_loop`'s return value), the process panicked, or the supplied
events ran out with the loop still going (an artifact of the finite model). -/
inductive SessionEnd where
  | broke (b : Bool)
  | panicked
  | ranOut
  deriving DecidableEq, Repr

/-- Running one session over a list of ready events: accumulated actions,
final state, and how the session ended. -/
def sessionTrace (env : Env) (oracle : IOOracle) :
    SessionState → List LoopEvent → List BridgeAction × SessionState × SessionEnd
  | st, [] => ([], st, SessionEnd.ranOut)
  | st, ev :: evs =>
      let r := run_loop_step env oracle st ev
      match r.outcome with
      | StepOutcome.keepLooping =>
          let rest := sessionTrace env oracle r.state evs
          (r.acts ++ rest.1, rest.2)
      | StepOutcome.stopOuter => (r.acts, r.state, SessionEnd.broke false)
      | StepOutcome.continueOuter => (r.acts, r.state, SessionEnd.broke true)
      | StepOutcome.panicked => (r.acts, r.state, SessionEnd.panicked)

/-- The group addresses read-requested in an action trace, in order. -/
def requestsOf : List BridgeAction → List GroupAddress
  | [] => []
  | BridgeAction.groupRequest g :: rest => g :: requestsOf rest
  | _ :: rest => requestsOf rest

/-! ## The connection supervisor (`run`) and its backoff -/

/-- Modelled from the spec: the exponential backoff of
`adaptive_backoff::ExponentialBackoffBuilder::default().min(1s).max(60s)` —
the crate's source is not part of this repository.  Per the spec's
BackoffState: {minimum, maximum, current}; doubling across consecutive
failures, capped at maximum, reset to minimum on any success.  Durations
are modelled in whole seconds. -/
structure BackoffSt where
  minD : Nat
  maxD : Nat
  current : Nat
  deriving DecidableEq, Repr

/-- Modelled from the spec: a fresh backoff built with minimum `minD` and
maximum `maxD` starts at the minimum delay. -/
def freshBackoff (minD maxD : Nat) : BackoffSt :=
  { minD := minD, maxD := maxD, current := minD }

/-- Modelled from the spec: `backoff.wait()` — returns the current delay to
sleep and advances the state (double, capped at maximum). -/
def backoffWait (b : BackoffSt) : Nat × BackoffSt :=
  (b.current, { b with current := min (b.current * 2) b.maxD })

/-- Modelled from the spec: `backoff.reset()` — any success resets the
current delay to the minimum. -/
def backoffReset (b : BackoffSt) : BackoffSt :=
  { b with current := b.minD }

/-- The outcome of one connection attempt of the supervisor loop in `run`:
`connect` fails, or it succeeds and the session then consumes the given
ready events. -/
inductive AttemptResult where
  | connectFailed
  | connected (events : List LoopEvent)

/-- How the supervisor run ends on a finite list of attempt outcomes. -/
inductive RunEnd where
  | exitedOk
  | stillRunning (b : BackoffSt)
  | processPanicked
  | sessionUnfinished

/-- The supervisor loop of `run` (main.rs lines 281–302) over a list of
connection-attempt outcomes, collecting the backoff sleeps it performs:

* `connect` ok → `backoff.reset()`, run one session (`run_loop`), then
  best-effort `connection.terminate()`; `break Ok(())` when the session
  reported `false` (stop outer loop), otherwise loop again;
* `connect` failed → `sleep(backoff.wait())` and loop again.

`sessionUnfinished` marks a session whose event list ran out without a
`break` (only possible because the model is finite), `processPanicked` a
session that hit a Rust panic. -/
def runModel (env : Env) (oracle : IOOracle) :
    BackoffSt → List AttemptResult → List Nat × RunEnd
  | b, [] => ([], RunEnd.stillRunning b)
  | b, AttemptResult.connectFailed :: rest =>
      let w := backoffWait b
      let r := runModel env oracle w.2 rest
      (w.1 :: r.1, r.2)
  | b, AttemptResult.connected events :: rest =>
      let b' := backoffReset b
      let session := sessionTrace env oracle (initState env) events
      match session.2.2 with
      | SessionEnd.broke false => ([], RunEnd.exitedOk)
      | SessionEnd.broke true => runModel env oracle b' rest
      | SessionEnd.panicked => ([], RunEnd.processPanicked)
      | SessionEnd.ranOut => ([], RunEnd.sessionUnfinished)

/-! ## Concrete instances used by witnesses and counterexamples -/

/-- A concrete environment: prefix "kp" (bytes 107, 112), group 7 known with
dpt 1 (unit "C"), value 9 decoding to data point 5, raw "01" parsing to data
point 5, raw "02" parsing to data point 6. -/
def envA : Env :=
  { prefixBytes := [107, 112]
    prefixStr := "kp"
    ignore_unknown := false
    initial_request := true
    initial_request_delay := 5
    project := some { groups := [{ address := 1 }, { address := 2 }, { address := 3 }] }
    group_dpt := fun g => if g = 7 then some 1 else none
    group_dpt_unit := fun g => if g = 7 then some "C" else none
    group_json := fun g d => if g = 7 ∧ d = [1] then some 9 else none
    try_decode_json := fun dpt v =>
      if dpt = 1 ∧ v = 9 then Except.ok 5
      else if dpt = 1 ∧ v = 8 then Except.ok 6
      else Except.error "cannot decode json"
    dataPointFromStr := fun s =>
      if s = "01" then Except.ok 5
      else if s = "02" then Except.ok 6
      else Except.error "cannot parse raw"
    dataToString := fun d => if d = [1] then "01" else "xx"
    groupToString := fun g => if g = 7 then "1/2/3" else "0/0/0"
    groupFromStr := fun s => if s = "g" then some 7 else none
    dptToString := fun dpt => if dpt = 1 then "1.001" else "0.000"
    fromUtf8Lossy := fun bs => if bs = [103] then "g" else "" }

/-- `envA` with no type metadata known for any group. -/
def envNoDpt : Env :=
  { envA with group_dpt := fun _ => none, group_dpt_unit := fun _ => none,
              group_json := fun _ _ => none }

/-- A telegram the bridge forwards: value-write to group 7 with payload
bytes `[1]`. -/
def cemiA : CEMI :=
  { tpdu := TPDU.dataGroup { service := Service.groupValueWrite, data := some [1] }
    destination := DestinationAddress.group 7 }

/-- An I/O oracle where every call succeeds. -/
def oracleOk : IOOracle :=
  { groupWriteOk := true, publishOk := true, groupRequestOk := true }

/-- An I/O oracle where `mqtt_client.publish` fails. -/
def oraclePubFail : IOOracle :=
  { groupWriteOk := true, publishOk := false, groupRequestOk := true }

/-- A topic whose bytes start with the prefix bytes (107, 112), continue
with byte 99 — which is NOT the separator 47, `'/'` — and end with byte 103,
which decodes to `"g"` and parses to group 7 under `envA`. -/
def pubNoSep : Publish :=
  { topic := [107, 112, 99, 103]
    payload := Except.ok { raw := some "01", value := none }
    retain := false }

/-- A publish whose topic bytes are exactly the prefix bytes: `starts_with`
succeeds but the slice at `prefix.len() + 1` is out of bounds. -/
def pubShort : Publish :=
  { topic := [107, 112]
    payload := Except.ok { raw := none, value := none }
    retain := false }

/-- A publish with an accepted topic and both `raw` and `value` set, whose
two decodings agree under `envA` (both give data point 5). -/
def pubBoth : Publish :=
  { topic := [107, 112, 99, 103]
    payload := Except.ok { raw := some "01", value := some 9 }
    retain := false }

/-- A publish with an accepted topic and only `value` set. -/
def pubValueOnly : Publish :=
  { topic := [107, 112, 99, 103]
    payload := Except.ok { raw := none, value := some 9 }
    retain := false }

/-! ## Claim theorems: translation layer, bus → broker -/

/-- The guard of `handle_knx`: a data-group TPDU with payload present, a
group destination, and an actionable service. -/
def isActionable (cemi : CEMI) : Prop :=
  ∃ s d g,
    cemi.tpdu = TPDU.dataGroup { service := s, data := some d } ∧
    cemi.destination = DestinationAddress.group g ∧
    (s = Service.groupValueWrite ∨ s = Service.groupValueResponse)

lemma jsonLookup_serializeOut_raw (m : MqttGroupMessageOut) :
    jsonLookup "raw" (serializeOut m) = some (JField.str m.raw) := by
  simp [jsonLookup, serializeOut]

/-- C3: for every telegram whose service is value-write or value-response,
whose destination is a group address and whose payload bytes are present,
`handle_knx` returns the topic `prefix ++ "/" ++ group.toString()` and a
payload whose `raw` field is the canonical string form of the payload
bytes; every other telegram yields `none`. -/
theorem c3_handle_knx_topic_and_raw :
    (∀ (env : Env) (s : Service) (d : RawData) (g : GroupAddress),
      (s = Service.groupValueWrite ∨ s = Service.groupValueResponse) →
      (Option.map Prod.fst (handle_knx env
          { tpdu := TPDU.dataGroup { service := s, data := some d }
            destination := DestinationAddress.group g })
          = some (env.prefixStr ++ "/" ++ env.groupToString g)) ∧
      (Option.map (fun r => jsonLookup "raw" r.2) (handle_knx env
          { tpdu := TPDU.dataGroup { service := s, data := some d }
            destination := DestinationAddress.group g })
          = some (some (JField.str (env.dataToString d)))))
    ∧ (∀ (env : Env) (cemi : CEMI), ¬ isActionable cemi → handle_knx env cemi = none) := by
  constructor
  · intro env s d g hs
    constructor
    · simp [handle_knx, hs]
    · simp [handle_knx, hs, jsonLookup_serializeOut_raw]
  · intro env cemi h
    obtain ⟨tpdu, dest⟩ := cemi
    cases tpdu with
    | dataGroup apdu =>
        obtain ⟨s, data⟩ := apdu
        cases data with
        | some d =>
            cases dest with
            | group g =>
                by_cases hs : s = Service.groupValueWrite ∨ s = Service.groupValueResponse
                · exact absurd ⟨s, d, g, rfl, rfl, hs⟩ h
                · simp [handle_knx, hs]
            | individual n => simp [handle_knx]
        | none => cases dest <;> simp [handle_knx]
    | otherTpdu => cases dest <;> simp [handle_knx]

/-- Witness for C3 at a concrete input: a value-write telegram to group 7
with payload `[1]` under `envA`. -/
theorem c3_witness :
    ((Option.map Prod.fst (handle_knx envA
        { tpdu := TPDU.dataGroup { service := Service.groupValueWrite, data := some [1] }
          destination := DestinationAddress.group 7 })
        = some (envA.prefixStr ++ "/" ++ envA.groupToString 7)) ∧
     (Option.map (fun r => jsonLookup "raw" r.2) (handle_knx envA
        { tpdu := TPDU.dataGroup { service := Service.groupValueWrite, data := some [1] }
          destination := DestinationAddress.group 7 })
        = some (some (JField.str (envA.dataToString [1]))))) ∧
    handle_knx envA { tpdu := TPDU.otherTpdu, destination := DestinationAddress.group 7 } = none :=
  ⟨c3_handle_knx_topic_and_raw.1 envA Service.groupValueWrite [1] 7 (Or.inl rfl),
   c3_handle_knx_topic_and_raw.2 envA _ (by rintro ⟨s, d, g, h, -, -⟩; exact TPDU.noConfusion h)⟩

/-- C4 counterexample: under `envNoDpt` no type metadata is known for group
7, yet the serialized payload produced by `handle_knx` for a value-write to
group 7 still contains a `dpt` field — serialized as JSON `null`, because
`MqttGroupMessageOut.dpt` carries no `skip_serializing_if` attribute.  The
claim that `dpt` is absent (not null) from the serialized payload when no
type metadata is known is therefore false. -/
theorem c4_counterexample :
    envNoDpt.group_dpt 7 = none ∧
    Option.map (fun r => jsonLookup "dpt" r.2) (handle_knx envNoDpt cemiA)
      = some (some JField.null) := by
  constructor
  · rfl
  · rfl

/-- C4 amended: in every serialized payload produced by `handle_knx`, `raw`
is always present, `dpt` is always present — as a string when type metadata
is known and as JSON `null` when it is not — and `unit` and `value` are
present if and only if they were resolvable. -/
theorem c4_serialized_fields :
    ∀ (env : Env) (s : Service) (d : RawData) (g : GroupAddress) (topic : String)
      (fields : List (String × JField)),
      handle_knx env
          { tpdu := TPDU.dataGroup { service := s, data := some d }
            destination := DestinationAddress.group g }
          = some (topic, fields) →
      jsonLookup "raw" fields = some (JField.str (env.dataToString d)) ∧
      jsonLookup "dpt" fields = some (match env.group_dpt g with
          | some dpt => JField.str (env.dptToString dpt)
          | none => JField.null) ∧
      jsonLookup "unit" fields = (env.group_dpt_unit g).map JField.str ∧
      jsonLookup "value" fields = (env.group_json g d).map JField.json := by
  intro env s d g topic fields h
  by_cases hs : s = Service.groupValueWrite ∨ s = Service.groupValueResponse
  · simp only [handle_knx, hs, if_pos, Option.some.injEq, Prod.mk.injEq] at h
    obtain ⟨-, hf⟩ := h
    subst hf
    rcases hdpt : env.group_dpt g with - | dpt <;>
      rcases hunit : env.group_dpt_unit g with - | u <;>
        rcases hval : env.group_json g d with - | v <;>
          simp [serializeOut, jsonLookup, hdpt, hunit, hval]
  · simp [handle_knx, hs] at h

/-- Witness for C4 amended: concrete value-write to group 7 under `envA`
(dpt 1 and unit "C" known, value 9 resolvable). -/
theorem c4_witness :
    jsonLookup "raw" (serializeOut
        { raw := envA.dataToString [1]
          dpt := (envA.group_dpt 7).map envA.dptToString
          unit := envA.group_dpt_unit 7
          value := envA.group_json 7 [1] })
      = some (JField.str (envA.dataToString [1])) ∧
    jsonLookup "dpt" (serializeOut
        { raw := envA.dataToString [1]
          dpt := (envA.group_dpt 7).map envA.dptToString
          unit := envA.group_dpt_unit 7
          value := envA.group_json 7 [1] })
      = some (match envA.group_dpt 7 with
          | some dpt => JField.str (envA.dptToString dpt)
          | none => JField.null) ∧
    jsonLookup "unit" (serializeOut
        { raw := envA.dataToString [1]
          dpt := (envA.group_dpt 7).map envA.dptToString
          unit := envA.group_dpt_unit 7
          value := envA.group_json 7 [1] })
      = (envA.group_dpt_unit 7).map JField.str ∧
    jsonLookup "value" (serializeOut
        { raw := envA.dataToString [1]
          dpt := (envA.group_dpt 7).map envA.dptToString
          unit := envA.group_dpt_unit 7
          value := envA.group_json 7 [1] })
      = (envA.group_json 7 [1]).map JField.json :=
  c4_serialized_fields envA Service.groupValueWrite [1] 7
    (envA.prefixStr ++ "/" ++ envA.groupToString 7) _ rfl

/-! ## Claim theorems: translation layer, broker → bus -/

/-- C10: there is an inbound publish whose topic starts with the configured
prefix bytes but whose length is not greater than the prefix length plus
one — here, a topic exactly equal to the prefix — for which the byte slice
`publish.topic[CLI.mqtt_prefix.len() + 1 ..]` in `handle_mqtt` is out of
bounds: `handle_mqtt` is not total, the indexing-panic branch is reachable
at the public interface instead of returning none or an error value. -/
theorem c10_slice_panic_reachable :
    ∃ (env : Env) (p : Publish),
      List.isPrefixOf env.prefixBytes p.topic = true ∧
      p.topic.length ≤ env.prefixBytes.length + 1 ∧
      env.prefixBytes.length + 1 > p.topic.length ∧
      (handle_mqtt env p).1 = Outcome.panic := by
  refine ⟨envA, pubShort, ?_, ?_, ?_, ?_⟩ <;> decide

/-- C5 counterexample: `pubNoSep`'s topic starts with the prefix bytes but
the byte after the prefix is 99, not the separator `'/'` (47); the claim
says such a topic is not processed, yet `handle_mqtt` still accepts it and
returns a (group, DataPoint) pair — `starts_with` checks only the prefix
bytes and the slice then skips one byte without inspecting it. -/
theorem c5_counterexample :
    List.isPrefixOf envA.prefixBytes pubNoSep.topic = true ∧
    pubNoSep.topic.take (envA.prefixBytes.length + 1) ≠ envA.prefixBytes ++ [47] ∧
    handle_mqtt envA pubNoSep = (Outcome.ok (some (7, 5)), []) := by
  refine ⟨?_, ?_, ?_⟩ <;> decide

/-- C5 amended: `handle_mqtt` accepts an inbound message only when its topic
starts with the configured prefix bytes, is at least one byte longer than
the prefix, and the bytes after position `prefix.len() + 1` parse as a
GroupAddress — the byte at the separator position itself is never checked;
a malformed remainder fails the whole operation with an error, and a topic
that does not start with the prefix bytes yields none. -/
theorem c5_topic_acceptance :
    (∀ (env : Env) (p : Publish) (g : GroupAddress) (dp : DataPoint)
        (warns : List String),
        handle_mqtt env p = (Outcome.ok (some (g, dp)), warns) →
        List.isPrefixOf env.prefixBytes p.topic = true ∧
        env.prefixBytes.length + 1 ≤ p.topic.length ∧
        env.groupFromStr (env.fromUtf8Lossy
            (p.topic.drop (env.prefixBytes.length + 1))) = some g)
    ∧ (∀ (env : Env) (p : Publish),
        List.isPrefixOf env.prefixBytes p.topic = true →
        env.prefixBytes.length + 1 ≤ p.topic.length →
        env.groupFromStr (env.fromUtf8Lossy
            (p.topic.drop (env.prefixBytes.length + 1))) = none →
        (handle_mqtt env p).1 = Outcome.error "invalid group address")
    ∧ (∀ (env : Env) (p : Publish),
        List.isPrefixOf env.prefixBytes p.topic = false →
        handle_mqtt env p = (Outcome.ok none, [])) := by
  refine ⟨?_, ?_, ?_⟩
  · intro env p g dp warns h
    by_cases h1 : List.isPrefixOf env.prefixBytes p.topic
    · by_cases h2 : env.prefixBytes.length + 1 ≤ p.topic.length
      · refine ⟨h1, h2, ?_⟩
        rcases hg : env.groupFromStr (env.fromUtf8Lossy
            (p.topic.drop (env.prefixBytes.length + 1))) with - | g'
        · simp [handle_mqtt, h1, h2, hg] at h
        · -- the returned group is the parsed group
          rcases hpay : p.payload with e | message
          · simp [handle_mqtt, h1, h2, hg, hpay] at h
          · have : g' = g := by
              by_cases hienv : (env.group_dpt g').isNone ∧ env.ignore_unknown
              · simp [handle_mqtt, h1, h2, hg, hpay, hienv] at h
              · rcases message with ⟨raw, value⟩
                rcases raw with - | r <;> rcases value with - | v <;>
                  rcases hdpt : env.group_dpt g' with - | dpt <;>
                    simp [handle_mqtt, h1, h2, hg, hpay, hienv, hdpt] at h <;>
                      first
                      | (rcases hdec : env.try_decode_json dpt v with e | d1 <;>
                          simp [hdec] at h <;>
                          (try rcases hraw : env.dataPointFromStr r with e | d2 <;>
                            simp [hraw] at h) <;>
                          (try split at h) <;> simp_all)
                      | (rcases hraw : env.dataPointFromStr r with e | d2 <;>
                          simp [hraw] at h <;> simp_all)
                      | simp_all
            rw [this]
      · simp [handle_mqtt, h1, h2] at h
    · simp [handle_mqtt, h1] at h
  · intro env p h1 h2 hg
    simp [handle_mqtt, h1, h2, hg]
  · intro env p h1
    simp [handle_mqtt, h1]

/-- Witness for C5 amended at concrete inputs: the accepted publish
`pubBoth` satisfies the acceptance conditions, a malformed remainder
errors, and a non-matching topic yields none. -/
theorem c5_witness :
    (List.isPrefixOf envA.prefixBytes pubBoth.topic = true ∧
      envA.prefixBytes.length + 1 ≤ pubBoth.topic.length ∧
      envA.groupFromStr (envA.fromUtf8Lossy
          (pubBoth.topic.drop (envA.prefixBytes.length + 1))) = some 7) ∧
    (handle_mqtt envA
        { topic := [107, 112, 99, 99], payload := Except.ok { raw := none, value := none }
          retain := false }).1 = Outcome.error "invalid group address" ∧
    handle_mqtt envA
        { topic := [0, 1], payload := Except.ok { raw := none, value := none }
          retain := false } = (Outcome.ok none, []) :=
  ⟨c5_topic_acceptance.1 envA pubBoth 7 5 [] (by decide),
   c5_topic_acceptance.2.1 envA _ (by decide) (by decide) (by decide),
   c5_topic_acceptance.2.2 envA _ (by decide)⟩

/-- The bus group writes issued in an action trace, in order. -/
def writesOf : List BridgeAction → List (GroupAddress × DataPoint)
  | [] => []
  | BridgeAction.groupWrite g d :: rest => (g, d) :: writesOf rest
  | _ :: rest => writesOf rest

lemma writesOf_map_logWarn (warns : List String) :
    writesOf (warns.map BridgeAction.logWarn) = [] := by
  induction warns with
  | nil => rfl
  | cons w ws ih => simpa [writesOf] using ih

lemma requestsOf_map_logWarn (warns : List String) :
    requestsOf (warns.map BridgeAction.logWarn) = [] := by
  induction warns with
  | nil => rfl
  | cons w ws ih => simpa [requestsOf] using ih

/-- C6 counterexample: under `envNoDpt` (ignore-unknown unset, no type known
for any group), an inbound message with only `value` set for group 7 is
returned as `Ok(None)` through the wildcard match arm with NO warning and no
error — the loop records no log action for it, so the case is silently
dropped, not reported as unresolved. -/
theorem c6_counterexample :
    envNoDpt.ignore_unknown = false ∧
    envNoDpt.group_dpt 7 = none ∧
    handle_mqtt envNoDpt pubValueOnly = (Outcome.ok none, []) ∧
    (run_loop_step envNoDpt oracleOk { queue := [] }
        (LoopEvent.mqttPoll (PollResult.publishArrived pubValueOnly))).acts = [] := by
  refine ⟨?_, ?_, ?_, ?_⟩ <;> decide

/-- C6 amended: for every inbound broker message with `value` set, `raw`
absent and no known type for the group, `handle_mqtt` returns none — and it
does so silently (no warning, no error, no logged action in the session
loop) regardless of the ignore-unknown flag. -/
theorem c6_unknown_value_only_silent :
    ∀ (env : Env) (p : Publish) (g : GroupAddress) (v : JsonVal),
      List.isPrefixOf env.prefixBytes p.topic = true →
      env.prefixBytes.length + 1 ≤ p.topic.length →
      env.groupFromStr (env.fromUtf8Lossy
          (p.topic.drop (env.prefixBytes.length + 1))) = some g →
      p.payload = Except.ok { raw := none, value := some v } →
      env.group_dpt g = none →
      handle_mqtt env p = (Outcome.ok none, []) ∧
      ∀ (oracle : IOOracle) (st : SessionState),
        (run_loop_step env oracle st
            (LoopEvent.mqttPoll (PollResult.publishArrived p))).outcome
          = StepOutcome.keepLooping ∧
        (run_loop_step env oracle st
            (LoopEvent.mqttPoll (PollResult.publishArrived p))).acts = [] := by
  intro env p g v h1 h2 hg hpay hdpt
  have hm : handle_mqtt env p = (Outcome.ok none, []) := by
    by_cases hi : env.ignore_unknown <;>
      simp [handle_mqtt, h1, h2, hg, hpay, hdpt, hi]
  refine ⟨hm, ?_⟩
  intro oracle st
  by_cases hr : p.retain <;> simp [run_loop_step, hr, hm]

/-- Witness for C6 amended at the concrete input of the counterexample. -/
theorem c6_witness :
    (handle_mqtt envNoDpt pubValueOnly = (Outcome.ok none, []) ∧
      ∀ (oracle : IOOracle) (st : SessionState),
        (run_loop_step envNoDpt oracle st
            (LoopEvent.mqttPoll (PollResult.publishArrived pubValueOnly))).outcome
          = StepOutcome.keepLooping ∧
        (run_loop_step envNoDpt oracle st
            (LoopEvent.mqttPoll (PollResult.publishArrived pubValueOnly))).acts = []) :=
  c6_unknown_value_only_silent envNoDpt pubValueOnly 7 9
    (by decide) (by decide) (by decide) rfl (by decide)

/-- C2: for every inbound broker message whose payload sets both `raw` and
`value` (on an accepted topic naming group `g`), `handle_mqtt` returns a
(group, DataPoint) result if and only if the group's type is known and the
DataPoint decoded from `value` via the type codec equals the DataPoint
parsed from `raw`; when the type is unknown or the two decodings disagree
it returns none, and whenever it returns none the session loop issues no
bus write for the message. -/
theorem c2_conflict_rule :
    ∀ (env : Env) (p : Publish) (g : GroupAddress) (r : String) (v : JsonVal),
      List.isPrefixOf env.prefixBytes p.topic = true →
      env.prefixBytes.length + 1 ≤ p.topic.length →
      env.groupFromStr (env.fromUtf8Lossy
          (p.topic.drop (env.prefixBytes.length + 1))) = some g →
      p.payload = Except.ok { raw := some r, value := some v } →
      ((∀ (g' : GroupAddress) (dp : DataPoint) (warns : List String),
          handle_mqtt env p = (Outcome.ok (some (g', dp)), warns) ↔
            (g' = g ∧ warns = [] ∧ ∃ dpt, env.group_dpt g = some dpt ∧
              env.try_decode_json dpt v = Except.ok dp ∧
              env.dataPointFromStr r = Except.ok dp))
        ∧ (env.group_dpt g = none → (handle_mqtt env p).1 = Outcome.ok none)
        ∧ (∀ (dpt : DptId) (dp1 dp2 : DataPoint), env.group_dpt g = some dpt →
            env.try_decode_json dpt v = Except.ok dp1 →
            env.dataPointFromStr r = Except.ok dp2 → dp1 ≠ dp2 →
            (handle_mqtt env p).1 = Outcome.ok none)
        ∧ (∀ (oracle : IOOracle) (st : SessionState),
            (handle_mqtt env p).1 = Outcome.ok none →
            writesOf (run_loop_step env oracle st
                (LoopEvent.mqttPoll (PollResult.publishArrived p))).acts = [])) := by
  intro env p g r v h1 h2 hg hpay
  refine ⟨?_, ?_, ?_, ?_⟩
  · intro g' dp warns
    constructor
    · intro h
      rcases hdpt : env.group_dpt g with - | dpt
      · by_cases hi : env.ignore_unknown <;>
          simp [handle_mqtt, h1, h2, hg, hpay, hdpt, hi] at h
      · rcases hdec : env.try_decode_json dpt v with e | d1 <;>
          simp [handle_mqtt, h1, h2, hg, hpay, hdpt, hdec] at h
        rcases hraw : env.dataPointFromStr r with e | d2 <;>
          simp [hraw] at h
        by_cases heq : d1 = d2
        · subst heq
          simp at h
          refine ⟨?_, ?_, dpt, rfl, ?_, ?_⟩ <;> simp_all
        · simp [heq] at h
    · rintro ⟨rfl, rfl, dpt, hdpt, hdec, hraw⟩
      simp [handle_mqtt, h1, h2, hg, hpay, hdpt, hdec, hraw]
  · intro hdpt
    by_cases hi : env.ignore_unknown <;>
      simp [handle_mqtt, h1, h2, hg, hpay, hdpt, hi]
  · intro dpt dp1 dp2 hdpt hdec hraw hne
    simp [handle_mqtt, h1, h2, hg, hpay, hdpt, hdec, hraw, hne]
  · intro oracle st hnone
    rcases hm : handle_mqtt env p with ⟨out, warns⟩
    rw [hm] at hnone
    simp at hnone
    subst hnone
    by_cases hr : p.retain <;>
      simp [run_loop_step, hr, hm, writesOf, writesOf_map_logWarn]

/-- Witness for C2 at a concrete input: `pubBoth` under `envA` (type known,
value 9 and raw "01" both decode to data point 5, so the agreed pair is
returned; the iff is instantiated at the returned pair). -/
theorem c2_witness :
    ((handle_mqtt envA pubBoth = (Outcome.ok (some (7, 5)), []) ↔
        (7 = 7 ∧ ([] : List String) = [] ∧ ∃ dpt, envA.group_dpt 7 = some dpt ∧
          envA.try_decode_json dpt 9 = Except.ok 5 ∧
          envA.dataPointFromStr "01" = Except.ok 5))) ∧
    handle_mqtt envA pubBoth = (Outcome.ok (some (7, 5)), []) :=
  ⟨(c2_conflict_rule envA pubBoth 7 "01" 9
      (by decide) (by decide) (by decide) rfl).1 7 5 [],
   by decide⟩

/-! ## Claim theorems: the session loop and supervisor -/

/-- A publish on an accepted-prefix topic whose JSON payload does not parse. -/
def pubBadPayload : Publish :=
  { topic := [107, 112, 99, 103]
    payload := Except.error "bad json"
    retain := false }


lemma step_outcome_interrupt (env : Env) (oracle : IOOracle) (st : SessionState) :
    (run_loop_step env oracle st LoopEvent.interrupt).outcome = StepOutcome.stopOuter :=
  rfl

lemma step_outcome_closed (env : Env) (oracle : IOOracle) (st : SessionState) :
    (run_loop_step env oracle st (LoopEvent.bus BusEvent.closed)).outcome
      = StepOutcome.continueOuter :=
  rfl

lemma step_outcome_pacing (env : Env) (oracle : IOOracle) (st : SessionState) :
    (run_loop_step env oracle st LoopEvent.pacingTick).outcome
      = StepOutcome.keepLooping := by
  rcases hq : st.queue with - | ⟨g, rest⟩ <;> simp [run_loop_step, hq]

lemma step_outcome_other (env : Env) (oracle : IOOracle) (st : SessionState) :
    (run_loop_step env oracle st (LoopEvent.mqttPoll PollResult.otherEvent)).outcome
      = StepOutcome.keepLooping :=
  rfl

lemma step_outcome_pollError (env : Env) (oracle : IOOracle) (st : SessionState)
    (e : String) :
    (run_loop_step env oracle st (LoopEvent.mqttPoll (PollResult.pollError e))).outcome
      = StepOutcome.keepLooping :=
  rfl

lemma step_outcome_publish (env : Env) (oracle : IOOracle) (st : SessionState)
    (p : Publish) :
    (run_loop_step env oracle st
        (LoopEvent.mqttPoll (PollResult.publishArrived p))).outcome =
      if p.retain = false ∧ (handle_mqtt env p).1 = Outcome.panic
      then StepOutcome.panicked else StepOutcome.keepLooping := by
  cases hr : p.retain
  · rcases hm : handle_mqtt env p with ⟨out, warns⟩
    cases out with
    | ok a => rcases a with - | ⟨ga, dp⟩ <;> simp [run_loop_step, hr, hm]
    | error e => simp [run_loop_step, hr, hm]
    | panic => simp [run_loop_step, hr, hm]
  · simp [run_loop_step, hr]

lemma step_outcome_telegram (env : Env) (oracle : IOOracle) (st : SessionState)
    (cemi : CEMI) :
    (run_loop_step env oracle st (LoopEvent.bus (BusEvent.telegram cemi))).outcome =
      if (handle_knx env cemi).isSome ∧ oracle.publishOk = false
      then StepOutcome.panicked else StepOutcome.keepLooping := by
  rcases hk : handle_knx env cemi with - | ⟨topic, message⟩
  · simp [run_loop_step, hk]
  · cases hp : oracle.publishOk <;> simp [run_loop_step, hk, hp]

lemma step_stopOuter_iff (env : Env) (oracle : IOOracle) (st : SessionState)
    (ev : LoopEvent) :
    (run_loop_step env oracle st ev).outcome = StepOutcome.stopOuter ↔
      ev = LoopEvent.interrupt := by
  cases ev with
  | interrupt => simp [step_outcome_interrupt]
  | pacingTick => simp [step_outcome_pacing]
  | mqttPoll r =>
      cases r with
      | publishArrived p =>
          rw [step_outcome_publish]
          split <;> simp
      | otherEvent => simp [step_outcome_other]
      | pollError e => simp [step_outcome_pollError]
  | bus e =>
      cases e with
      | closed => simp [step_outcome_closed]
      | telegram cemi =>
          rw [step_outcome_telegram]
          split <;> simp

lemma step_continueOuter_iff (env : Env) (oracle : IOOracle) (st : SessionState)
    (ev : LoopEvent) :
    (run_loop_step env oracle st ev).outcome = StepOutcome.continueOuter ↔
      ev = LoopEvent.bus BusEvent.closed := by
  cases ev with
  | interrupt => simp [step_outcome_interrupt]
  | pacingTick => simp [step_outcome_pacing]
  | mqttPoll r =>
      cases r with
      | publishArrived p =>
          rw [step_outcome_publish]
          split <;> simp
      | otherEvent => simp [step_outcome_other]
      | pollError e => simp [step_outcome_pollError]
  | bus e =>
      cases e with
      | closed => simp [step_outcome_closed]
      | telegram cemi =>
          rw [step_outcome_telegram]
          split <;> simp

/-- C1 counterexample: a broker publish failure while forwarding an inbound
bus telegram is NOT logged-and-continued — `run_loop` calls
`mqtt_client.publish(..).await.unwrap()`, so the iteration panics and the
session aborts, contradicting the claim that no single-event handling error
aborts the loop. -/
theorem c1_counterexample :
    (handle_knx envA cemiA).isSome = true ∧
    oraclePubFail.publishOk = false ∧
    (run_loop_step envA oraclePubFail { queue := [] }
        (LoopEvent.bus (BusEvent.telegram cemiA))).outcome = StepOutcome.panicked ∧
    StepOutcome.panicked ≠ StepOutcome.keepLooping := by
  refine ⟨?_, ?_, ?_, ?_⟩ <;> decide

/-- C1 amended: single-event handling *errors* (a failed `handle_mqtt`
translation, a failed bus group write, an MQTT poll error) are logged and
the loop continues, and the loop breaks only on the shutdown signal (stop)
or bus closure (continue) — but a broker publish failure while forwarding
an inbound bus telegram panics (`.unwrap()`), aborting the session, as does
the out-of-bounds topic slice inside `handle_mqtt`. -/
theorem c1_event_error_handling :
    ∀ (env : Env) (oracle : IOOracle) (st : SessionState) (ev : LoopEvent),
      ((run_loop_step env oracle st ev).outcome = StepOutcome.stopOuter ↔
        ev = LoopEvent.interrupt) ∧
      ((run_loop_step env oracle st ev).outcome = StepOutcome.continueOuter ↔
        ev = LoopEvent.bus BusEvent.closed) ∧
      ((run_loop_step env oracle st ev).outcome = StepOutcome.panicked ↔
        ((∃ cemi, ev = LoopEvent.bus (BusEvent.telegram cemi) ∧
            (handle_knx env cemi).isSome ∧ oracle.publishOk = false) ∨
         (∃ p, ev = LoopEvent.mqttPoll (PollResult.publishArrived p) ∧
            p.retain = false ∧ (handle_mqtt env p).1 = Outcome.panic))) ∧
      (∀ (p : Publish) (e : String) (warns : List String),
        ev = LoopEvent.mqttPoll (PollResult.publishArrived p) →
        p.retain = false → handle_mqtt env p = (Outcome.error e, warns) →
        (run_loop_step env oracle st ev).outcome = StepOutcome.keepLooping ∧
        BridgeAction.logWarn "cannot handle incoming mqtt message"
          ∈ (run_loop_step env oracle st ev).acts) ∧
      (∀ (p : Publish) (g : GroupAddress) (dp : DataPoint) (warns : List String),
        ev = LoopEvent.mqttPoll (PollResult.publishArrived p) →
        p.retain = false → handle_mqtt env p = (Outcome.ok (some (g, dp)), warns) →
        oracle.groupWriteOk = false →
        (run_loop_step env oracle st ev).outcome = StepOutcome.keepLooping ∧
        BridgeAction.logError "cannot write to group"
          ∈ (run_loop_step env oracle st ev).acts) ∧
      (∀ e : String, ev = LoopEvent.mqttPoll (PollResult.pollError e) →
        (run_loop_step env oracle st ev).outcome = StepOutcome.keepLooping ∧
        BridgeAction.logWarn "mqtt error" ∈ (run_loop_step env oracle st ev).acts) := by
  intro env oracle st ev
  refine ⟨step_stopOuter_iff env oracle st ev, step_continueOuter_iff env oracle st ev,
    ?_, ?_, ?_, ?_⟩
  · cases ev with
    | interrupt => simp [step_outcome_interrupt]
    | pacingTick => simp [step_outcome_pacing]
    | mqttPoll r =>
        cases r with
        | publishArrived p =>
            rw [step_outcome_publish]
            split <;> rename_i hcond
            · exact iff_of_true rfl (Or.inr ⟨p, rfl, hcond⟩)
            · refine iff_of_false (by simp) ?_
              rintro (⟨cemi', hc, -⟩ | ⟨p', hp', hcond'⟩)
              · exact LoopEvent.noConfusion hc
              · injection hp' with h1
                injection h1 with h2
                subst h2
                exact hcond hcond'
        | otherEvent => simp [step_outcome_other]
        | pollError e => simp [step_outcome_pollError]
    | bus e =>
        cases e with
        | closed => simp [step_outcome_closed]
        | telegram cemi =>
            rw [step_outcome_telegram]
            split <;> rename_i hcond
            · exact iff_of_true rfl (Or.inl ⟨cemi, rfl, hcond⟩)
            · refine iff_of_false (by simp) ?_
              rintro (⟨cemi', hc, hcond'⟩ | ⟨p', hp', -⟩)
              · injection hc with h1
                injection h1 with h2
                subst h2
                exact hcond hcond'
              · exact LoopEvent.noConfusion hp'
  · rintro p e warns rfl hr hm
    simp [run_loop_step, hr, hm]
  · rintro p g dp warns rfl hr hm hw
    simp [run_loop_step, hr, hm, hw]
  · rintro e rfl
    simp [run_loop_step]

/-- Witness for C1 amended at concrete inputs: a publish whose payload does
not parse is logged and the loop keeps going, and a failed bus group write
is logged and the loop keeps going. -/
theorem c1_witness :
    ((run_loop_step envA oracleOk { queue := [] }
        (LoopEvent.mqttPoll (PollResult.publishArrived pubBadPayload))).outcome
      = StepOutcome.keepLooping ∧
     BridgeAction.logWarn "cannot handle incoming mqtt message"
       ∈ (run_loop_step envA oracleOk { queue := [] }
           (LoopEvent.mqttPoll (PollResult.publishArrived pubBadPayload))).acts) ∧
    ((run_loop_step envA { groupWriteOk := false, publishOk := true, groupRequestOk := true }
        { queue := [] }
        (LoopEvent.mqttPoll (PollResult.publishArrived pubBoth))).outcome
      = StepOutcome.keepLooping ∧
     BridgeAction.logError "cannot write to group"
       ∈ (run_loop_step envA
           { groupWriteOk := false, publishOk := true, groupRequestOk := true }
           { queue := [] }
           (LoopEvent.mqttPoll (PollResult.publishArrived pubBoth))).acts) :=
  ⟨(c1_event_error_handling envA oracleOk { queue := [] }
        (LoopEvent.mqttPoll (PollResult.publishArrived pubBadPayload))).2.2.2.1
      pubBadPayload "bad json" [] rfl (by decide) (by decide),
   (c1_event_error_handling envA
        { groupWriteOk := false, publishOk := true, groupRequestOk := true }
        { queue := [] }
        (LoopEvent.mqttPoll (PollResult.publishArrived pubBoth))).2.2.2.2.1
      pubBoth 7 5 [] rfl (by decide) (by decide) (by decide)⟩

/-- C9 counterexample: a session can also end by neither of the two claimed
ways — an MQTT publish on a topic exactly equal to the prefix reaches the
out-of-bounds slice, the iteration panics, and the session terminates
without `run_loop` reporting either "stop outer loop" or "continue outer
loop". -/
theorem c9_counterexample :
    (sessionTrace envA oracleOk (initState envA)
        [LoopEvent.mqttPoll (PollResult.publishArrived pubShort)]).2.2
      = SessionEnd.panicked ∧
    SessionEnd.panicked ≠ SessionEnd.broke false ∧
    SessionEnd.panicked ≠ SessionEnd.broke true := by
  refine ⟨?_, ?_, ?_⟩ <;> decide

/-- C9 amended: `run_loop` *breaks* in exactly two ways — on the shutdown
signal it breaks `false` ("stop outer loop") and the supervisor then exits
`run()` with success without retrying; on bus-connection closure it breaks
`true` ("continue outer loop") and the supervisor starts a new iteration
with its backoff reset; no other event-branch outcome breaks the loop —
however a panicking iteration (failed broker publish, out-of-bounds topic
slice) additionally aborts the session without a break. -/
theorem c9_session_termination :
    (∀ (env : Env) (oracle : IOOracle) (st : SessionState) (ev : LoopEvent),
      ((run_loop_step env oracle st ev).outcome = StepOutcome.stopOuter ↔
        ev = LoopEvent.interrupt) ∧
      ((run_loop_step env oracle st ev).outcome = StepOutcome.continueOuter ↔
        ev = LoopEvent.bus BusEvent.closed))
    ∧ (∀ (env : Env) (oracle : IOOracle) (b : BackoffSt) (events : List LoopEvent)
        (rest : List AttemptResult),
        ((sessionTrace env oracle (initState env) events).2.2 = SessionEnd.broke false →
          (runModel env oracle b (AttemptResult.connected events :: rest)).2
            = RunEnd.exitedOk) ∧
        ((sessionTrace env oracle (initState env) events).2.2 = SessionEnd.broke true →
          runModel env oracle b (AttemptResult.connected events :: rest)
            = runModel env oracle (backoffReset b) rest)) := by
  constructor
  · intro env oracle st ev
    exact ⟨step_stopOuter_iff env oracle st ev, step_continueOuter_iff env oracle st ev⟩
  · intro env oracle b events rest
    constructor
    · intro h
      simp [runModel, h]
    · intro h
      simp [runModel, h]

/-- Witness for C9 amended at concrete inputs: a session ending on the
shutdown signal makes the supervisor exit with success; one ending on bus
closure makes it run a fresh iteration with the backoff reset. -/
theorem c9_witness :
    (runModel envA oracleOk (freshBackoff 1 60)
        [AttemptResult.connected [LoopEvent.interrupt]]).2 = RunEnd.exitedOk ∧
    runModel envA oracleOk (freshBackoff 1 60)
        [AttemptResult.connected [LoopEvent.bus BusEvent.closed]]
      = runModel envA oracleOk (backoffReset (freshBackoff 1 60)) [] ∧
    ((run_loop_step envA oracleOk (initState envA) LoopEvent.interrupt).outcome
        = StepOutcome.stopOuter ↔ LoopEvent.interrupt = LoopEvent.interrupt) :=
  ⟨(c9_session_termination.2 envA oracleOk (freshBackoff 1 60)
      [LoopEvent.interrupt] []).1 (by decide),
   (c9_session_termination.2 envA oracleOk (freshBackoff 1 60)
      [LoopEvent.bus BusEvent.closed] []).2 (by decide),
   (c9_session_termination.1 envA oracleOk (initState envA) LoopEvent.interrupt).1⟩

/-- Iterated failure-advance of the backoff state (`n` calls to `wait`,
keeping only the state). -/
def advanceN (b : BackoffSt) : Nat → BackoffSt
  | 0 => b
  | n + 1 => (backoffWait (advanceN b n)).2

lemma advanceN_maxD (b : BackoffSt) : ∀ n, (advanceN b n).maxD = b.maxD := by
  intro n
  induction n with
  | zero => rfl
  | succ n ih => simp [advanceN, backoffWait, ih]

lemma advanceN_current (minD maxD : Nat) (h : minD ≤ maxD) :
    ∀ n, (advanceN (freshBackoff minD maxD) n).current = min (minD * 2 ^ n) maxD := by
  intro n
  induction n with
  | zero =>
      simp only [advanceN, freshBackoff, pow_zero, mul_one]
      omega
  | succ n ih =>
      have hmax := advanceN_maxD (freshBackoff minD maxD) n
      show (backoffWait (advanceN (freshBackoff minD maxD) n)).2.current
        = min (minD * 2 ^ (n + 1)) maxD
      simp only [backoffWait]
      rw [ih, hmax]
      have hfm : (freshBackoff minD maxD).maxD = maxD := rfl
      rw [hfm]
      have hx : minD * 2 ^ (n + 1) = minD * 2 ^ n * 2 := by ring
      rw [hx]
      generalize minD * 2 ^ n = x
      omega

lemma advanceN_shift (b : BackoffSt) :
    ∀ n, advanceN ((backoffWait b).2) n = advanceN b (n + 1) := by
  intro n
  induction n with
  | zero => rfl
  | succ n ih => simp [advanceN, ih]

lemma runModel_connectFailed_cons (env : Env) (oracle : IOOracle) (b : BackoffSt)
    (l : List AttemptResult) :
    runModel env oracle b (AttemptResult.connectFailed :: l)
      = ((backoffWait b).1 :: (runModel env oracle (backoffWait b).2 l).1,
         (runModel env oracle (backoffWait b).2 l).2) :=
  rfl

lemma runModel_waits_replicate (env : Env) (oracle : IOOracle) :
    ∀ (n : Nat) (b : BackoffSt),
      ((runModel env oracle b
          (List.replicate (n + 1) AttemptResult.connectFailed)).1)[n]?
        = some ((advanceN b n).current) := by
  intro n
  induction n with
  | zero => intro b; rfl
  | succ n ih =>
      intro b
      rw [List.replicate_succ, runModel_connectFailed_cons]
      simp only [List.getElem?_cons_succ]
      rw [ih ((backoffWait b).2), advanceN_shift]

/-- C7: for the supervisor's backoff with minimum `minD` and maximum
`maxD`, the wait performed for the k-th consecutive connection failure
(k ≥ 1) equals `min (minD * 2 ^ (k - 1)) maxD`; and after a successful
connection whose session ends in a disconnect, the next failure again
waits the minimum delay (success resets the backoff). -/
theorem c7_backoff :
    (∀ (env : Env) (oracle : IOOracle) (minD maxD k : Nat), 1 ≤ k → minD ≤ maxD →
      ((runModel env oracle (freshBackoff minD maxD)
          (List.replicate k AttemptResult.connectFailed)).1)[k - 1]?
        = some (min (minD * 2 ^ (k - 1)) maxD))
    ∧ (∀ (env : Env) (oracle : IOOracle) (b : BackoffSt) (events : List LoopEvent)
        (rest : List AttemptResult),
        (sessionTrace env oracle (initState env) events).2.2 = SessionEnd.broke true →
        ((runModel env oracle b (AttemptResult.connected events
            :: AttemptResult.connectFailed :: rest)).1)[0]? = some b.minD) := by
  constructor
  · intro env oracle minD maxD k hk h
    obtain ⟨n, rfl⟩ : ∃ n, k = n + 1 := ⟨k - 1, (Nat.succ_pred_eq_of_pos hk).symm⟩
    simp only [Nat.add_sub_cancel]
    rw [runModel_waits_replicate env oracle n (freshBackoff minD maxD),
      advanceN_current minD maxD h n]
  · intro env oracle b events rest h
    simp [runModel, h, backoffReset, backoffWait]

/-- Witness for C7 at concrete inputs: minimum 1s, maximum 60s, three
consecutive failures wait 1s, 2s, 4s (the third wait is
`min (1 * 2 ^ 2) 60 = 4`), and after a successful session ending in
disconnect the next failure waits 1s again. -/
theorem c7_witness :
    (1 ≤ 3 ∧ 1 ≤ 60) ∧
    ((runModel envA oracleOk (freshBackoff 1 60)
        (List.replicate 3 AttemptResult.connectFailed)).1)[2]?
      = some (min (1 * 2 ^ 2) 60) ∧
    ((runModel envA oracleOk (freshBackoff 1 60)
        (AttemptResult.connected [LoopEvent.bus BusEvent.closed]
          :: AttemptResult.connectFailed :: [])).1)[0]?
      = some (freshBackoff 1 60).minD :=
  ⟨⟨by decide, by decide⟩,
   c7_backoff.1 envA oracleOk 1 60 3 (by decide) (by decide),
   c7_backoff.2 envA oracleOk (freshBackoff 1 60)
     [LoopEvent.bus BusEvent.closed] [] (by decide)⟩

lemma requestsOf_append (a b : List BridgeAction) :
    requestsOf (a ++ b) = requestsOf a ++ requestsOf b := by
  induction a with
  | nil => rfl
  | cons x rest ih => cases x <;> simp [requestsOf, ih]

/-- One iteration conserves the queue: the addresses read-requested by the
iteration, followed by the remaining queue, are exactly the queue it
started from (no branch ever adds to the queue). -/
lemma step_requests_queue (env : Env) (oracle : IOOracle) (st : SessionState)
    (ev : LoopEvent) :
    requestsOf (run_loop_step env oracle st ev).acts
      ++ (run_loop_step env oracle st ev).state.queue = st.queue := by
  cases ev with
  | interrupt => simp [run_loop_step, requestsOf]
  | pacingTick =>
      rcases hq : st.queue with - | ⟨g, rest⟩ <;>
        simp [run_loop_step, hq, requestsOf]
  | mqttPoll r =>
      cases r with
      | publishArrived p =>
          by_cases hr : p.retain
          · simp [run_loop_step, hr, requestsOf]
          · rcases hm : handle_mqtt env p with ⟨out, warns⟩
            cases out with
            | ok a =>
                rcases a with - | ⟨ga, dp⟩ <;>
                  cases hw : oracle.groupWriteOk <;>
                    simp [run_loop_step, hr, hm, hw, requestsOf, requestsOf_append,
                      requestsOf_map_logWarn]
            | error e =>
                simp [run_loop_step, hr, hm, requestsOf, requestsOf_append,
                  requestsOf_map_logWarn]
            | panic =>
                simp [run_loop_step, hr, hm, requestsOf, requestsOf_map_logWarn]
      | otherEvent => simp [run_loop_step, requestsOf]
      | pollError e => simp [run_loop_step, requestsOf]
  | bus e =>
      cases e with
      | closed => simp [run_loop_step, requestsOf]
      | telegram cemi =>
          rcases hk : handle_knx env cemi with - | ⟨topic, message⟩
          · simp [run_loop_step, hk, requestsOf]
          · cases hp : oracle.publishOk <;> simp [run_loop_step, hk, hp, requestsOf]

/-- Across any run of iterations, the read-requested addresses are an
in-order prefix of the starting queue, and the remaining queue is the
matching suffix. -/
lemma sessionTrace_requests (env : Env) (oracle : IOOracle) :
    ∀ (evs : List LoopEvent) (st : SessionState),
      ∃ n, requestsOf (sessionTrace env oracle st evs).1 = st.queue.take n ∧
        (sessionTrace env oracle st evs).2.1.queue = st.queue.drop n := by
  intro evs
  induction evs with
  | nil =>
      intro st
      exact ⟨0, by simp [sessionTrace, requestsOf]⟩
  | cons ev evs ih =>
      intro st
      have hstep := step_requests_queue env oracle st ev
      rcases houtcome : (run_loop_step env oracle st ev).outcome with - | - | - | -
      all_goals
        simp only [sessionTrace, houtcome]
      case keepLooping =>
        obtain ⟨m, hreq, hqueue⟩ := ih (run_loop_step env oracle st ev).state
        refine ⟨(requestsOf (run_loop_step env oracle st ev).acts).length + m, ?_, ?_⟩
        · rw [requestsOf_append, hreq, ← hstep, List.take_append]
        · rw [hqueue, ← hstep, List.drop_append]
      all_goals
        refine ⟨(requestsOf (run_loop_step env oracle st ev).acts).length, ?_, ?_⟩ <;>
          rw [← hstep] <;> simp [List.take_left, List.drop_left]

/-- C8: within one session the initial-request queue is populated exactly
once, at session start — only when startup polling is enabled and a project
is available, in the project's group-enumeration order; each pacing tick
read-requests exactly the front address and removes it (strict FIFO); the
pacing sleep is infinite (`Duration::MAX`, modelled as `none`: the timer
never fires) exactly when the queue is empty; no iteration ever adds to the
queue; and the addresses requested over any whole session run are an
in-order prefix of the initial queue. -/
theorem c8_initial_request_queue :
    (∀ env : Env, (initState env).queue = initialQueue env)
    ∧ (∀ (env : Env) (project : Project), env.initial_request = true →
        env.project = some project →
        initialQueue env = project.groups.map ProjectGroup.address)
    ∧ (∀ env : Env, env.initial_request = false ∨ env.project = none →
        initialQueue env = [])
    ∧ (∀ (env : Env) (oracle : IOOracle) (st : SessionState) (g : GroupAddress)
        (rest : List GroupAddress), st.queue = g :: rest →
        run_loop_step env oracle st LoopEvent.pacingTick =
          { outcome := StepOutcome.keepLooping, state := { queue := rest }
            acts := [BridgeAction.groupRequest g] })
    ∧ (∀ (env : Env) (st : SessionState), pacingSleep env st = none ↔ st.queue = [])
    ∧ (∀ (env : Env) (oracle : IOOracle) (st : SessionState) (ev : LoopEvent),
        requestsOf (run_loop_step env oracle st ev).acts
          ++ (run_loop_step env oracle st ev).state.queue = st.queue)
    ∧ (∀ (env : Env) (oracle : IOOracle) (evs : List LoopEvent),
        ∃ n, requestsOf (sessionTrace env oracle (initState env) evs).1
          = (initialQueue env).take n) := by
  refine ⟨?_, ?_, ?_, ?_, ?_, ?_, ?_⟩
  · intro env
    rfl
  · intro env project hi hp
    simp [initialQueue, hi, hp]
  · intro env h
    rcases h with h | h <;> simp [initialQueue, h]
  · intro env oracle st g rest hq
    simp [run_loop_step, hq]
  · intro env st
    rcases hq : st.queue with - | ⟨g, rest⟩ <;> simp [pacingSleep, hq]
  · exact step_requests_queue
  · intro env oracle evs
    obtain ⟨n, hreq, -⟩ := sessionTrace_requests env oracle evs (initState env)
    exact ⟨n, hreq⟩

/-- Witness for C8 at concrete inputs: under `envA` the initial queue is the
project's enumeration `[1, 2, 3]`; a pacing tick on queue `[1, 2, 3]`
requests 1 and leaves `[2, 3]`; the pacing sleep is none exactly on the
empty queue; and a session consuming two pacing ticks requests `[1, 2]`, a
prefix of the initial queue. -/
theorem c8_witness :
    (initState envA).queue = initialQueue envA ∧
    initialQueue envA = ({ groups := [{ address := 1 }, { address := 2 },
        { address := 3 }] } : Project).groups.map ProjectGroup.address ∧
    run_loop_step envA oracleOk { queue := [1, 2, 3] } LoopEvent.pacingTick =
      { outcome := StepOutcome.keepLooping, state := { queue := [2, 3] }
        acts := [BridgeAction.groupRequest 1] } ∧
    (pacingSleep envA { queue := [] } = none ↔
      SessionState.queue { queue := [] } = []) ∧
    (∃ n, requestsOf (sessionTrace envA oracleOk (initState envA)
        [LoopEvent.pacingTick, LoopEvent.pacingTick]).1
      = (initialQueue envA).take n) :=
  ⟨c8_initial_request_queue.1 envA,
   c8_initial_request_queue.2.1 envA
     { groups := [{ address := 1 }, { address := 2 }, { address := 3 }] } rfl rfl,
   c8_initial_request_queue.2.2.2.1 envA oracleOk { queue := [1, 2, 3] } 1 [2, 3] rfl,
   c8_initial_request_queue.2.2.2.2.1 envA { queue := [] },
   c8_initial_request_queue.2.2.2.2.2.2 envA oracleOk
     [LoopEvent.pacingTick, LoopEvent.pacingTick]⟩
